import Mathlib

/-!
Shallow embedding of the OPC-UA connector
(`thingsboard_gateway/connectors/opcua/opcua_connector.py`) and proofs about
its specification.

Python strings are embedded as `List Char` so that every operation is
structurally recursive and can be evaluated by the kernel.  Python `raise`
is embedded as the `PyResult` type.  The asyncua client is an external
capability; its calls (`get_children`, `read_browse_name`, `get_child`,
`read_attributes`, subscriptions) are embedded as an explicit address-space
tree and oracle functions, while all orchestration logic is translated
line by line from the source.
-/

/-- Python string contents. -/
abbrev Chars := List Char

/-- Auxiliary loop of `pySplit` (Python `str.split(sep)` with a one-character
separator): `acc` holds the current piece reversed. -/
def splitCh (sep : Char) : Chars → Chars → List Chars
  | [], acc => [acc.reverse]
  | c :: rest, acc =>
    if c = sep then acc.reverse :: splitCh sep rest [] else splitCh sep rest (c :: acc)

/-- Python `s.split(sep)` for a one-character separator `sep`.  Like in
Python, the result is never empty and adjacent separators yield empty
pieces. -/
def pySplit (s : Chars) (sep : Char) : List Chars := splitCh sep s []

/-- Auxiliary loop of `pySplitEscDot`. -/
def splitEscDot : Chars → Chars → List Chars
  | [], acc => [acc.reverse]
  | '\\' :: '.' :: rest, acc => acc.reverse :: splitEscDot rest []
  | c :: rest, acc => splitEscDot rest (c :: acc)

/-- Python `s.split('\\.')`: node patterns are split on the two-character
delimiter backslash-dot. -/
def pySplitEscDot (s : Chars) : List Chars := splitEscDot s []

/-- Python `sub in s` (substring containment). -/
def containsSub (sub s : Chars) : Bool :=
  match s with
  | [] => sub.isEmpty
  | _ :: rest => sub.isPrefixOf s || containsSub sub rest

/-- Decimal rendering of a natural number, as used by the f-string
`f'{child_node.NamespaceIndex}:{child_node.Name}'`. -/
def natToChars (n : Nat) : Chars := Nat.toDigits 10 n

/-- Python `xs[:-n]` on a list.  Crucially, Python's `-0` equals `0`, so
`xs[:-0] = xs[:0] = []`; for `n ≥ 1` the slice keeps `len xs - n` leading
elements (clamped at zero). -/
def pySliceToNeg {α : Type} (l : List α) (n : Nat) : List α :=
  if n = 0 then [] else l.take (l.length - n)

/-- Python `s.split(sep)[-1]`: the last piece (total, since a Python split
result is never empty). -/
def pySplitLast (s : Chars) (sep : Char) : Chars := (pySplit s sep).getLastD []

/-- Python `sep.join(pieces)` for the one-character separator `sep`. -/
def pyJoin (sep : Char) : List Chars → Chars
  | [] => []
  | [p] => p
  | p :: ps => p ++ sep :: pyJoin sep ps

/-- Exceptions that the embedded connector code can raise. -/
inductive PyErr where
  | assertionError
  | badNoMatch
  | indexError
  | connectionError
deriving DecidableEq, Repr

/-- Result of running a piece of Python code: value or exception. -/
inductive PyResult (α : Type) where
  | ok (val : α)
  | exn (err : PyErr)
deriving DecidableEq, Repr

/-! ## Address space and `find_nodes` (AddressSpaceResolver) -/

/-- The server address space as browsed through the asyncua client:
each node carries the browse name (`NamespaceIndex`, `Name`) and its
children (in browse order). -/
inductive OpcNode where
  | mk (namespaceIndex : Nat) (name : Chars) (children : List OpcNode)

def OpcNode.name : OpcNode → Chars | .mk _ n _ => n

def OpcNode.children : OpcNode → List OpcNode | .mk _ _ c => c

def OpcNode.namespaceIndex : OpcNode → Nat | .mk i _ _ => i

/-- The match test of `__find_nodes` (opcua_connector.py line 339):
`re.fullmatch(re.escape(node_list[0]), child_node.Name) or
node_list[0].split(':')[-1] == child_node.Name`.  Since `re.escape`
escapes every regex metacharacter, the full match of the escaped segment
succeeds exactly when the segment equals the name literally; the second
disjunct strips an optional namespace qualifier. -/
def segMatches (seg childName : Chars) : Bool :=
  (seg == childName) || ((pySplit seg ':').getLastD [] == childName)

/-- The browse-name string `f'{NamespaceIndex}:{Name}'` of a node. -/
def browseQName (n : OpcNode) : Chars := natToChars n.namespaceIndex ++ ':' :: n.name

/-- Recursive body of `__find_nodes` (lines 331-346) after its entry
assertion: for every child of the frontier node whose browse name matches
the head segment, either emit the extended qualified path (last segment)
or recurse into the child with the remaining segments. -/
def findNodesCore : List Chars → OpcNode → List Chars → List (List Chars)
  | [], _, _ => []
  | seg :: rest, parent, nodes =>
    parent.children.flatMap (fun child =>
      if segMatches seg child.name then
        let newNodes := nodes ++ [browseQName child]
        if rest.isEmpty then [newNodes] else findNodesCore rest child newNodes
      else [])

/-- `__find_nodes` including its `assert len(node_list) > 0` (line 332).
Recursive calls always pass a non-empty list, so checking the assertion at
entry is equivalent to the Python code. -/
def findNodesChecked (segs : List Chars) (parent : OpcNode) (nodes : List Chars) :
    PyResult (List (List Chars)) :=
  if segs.isEmpty then .exn .assertionError else .ok (findNodesCore segs parent nodes)

/-- `find_nodes` (lines 348-357): split the pattern on the escaped-dot
delimiter, strip a leading literal `root`, and search from the
address-space root. -/
def find_nodes (root : OpcNode) (node_pattern : Chars) : PyResult (List (List Chars)) :=
  let node_list := pySplitEscDot node_pattern
  let node_list :=
    if node_list.length > 0 && (node_list.headD []).map Char.toLower == "root".data then
      node_list.drop 1
    else node_list
  findNodesChecked node_list root []

/-- The asyncua capability `root.get_child(path)`: follow the qualified
browse names one level at a time; an unmatched element raises
(`BadNoMatch`). -/
def get_child (root : OpcNode) : List Chars → PyResult OpcNode
  | [] => .ok root
  | q :: rest =>
    match root.children.find? (fun c => browseQName c == q) with
    | some c => get_child c rest
    | none => .exn .badNoMatch

/-- `find_node_name_space_index` (lines 359-371): count the segments
lacking a `ns:Name` qualifier, slice the resolved leading part with the
Python expression `path[:-u_node_count]`, fast-forward to it with
`get_child`, and browse-and-match the unresolved tail. -/
def find_node_name_space_index (root : OpcNode) (path : List Chars) :
    PyResult (List (List Chars)) :=
  let uNodeCount := (path.filter (fun u => (pySplit u ':').length < 2)).length
  let resolved := pySliceToNeg path uNodeCount
  let resolvedLevel := path.length - uNodeCount
  match get_child root resolved with
  | .exn e => .exn e
  | .ok parentNode => findNodesChecked (path.drop resolvedLevel) parentNode resolved

/-- Full-match semantics of a regular expression of the form `stem.*`
(a literal stem followed by dot-star), as the spec's regex matching
prescribes for pattern segments: it accepts exactly the strings that
start with the stem. -/
def dotStarFullmatch (stem s : Chars) : Bool := stem.isPrefixOf s

/-- A frontier node with two children whose names the regex segment
`Temp.*` matches. -/
def tempFrontier : OpcNode :=
  .mk 0 "Root".data [.mk 2 "Temperature".data [], .mk 2 "Temp2".data []]

/-- C1: the claim asserts that a segment can match a child by full-pattern
regex matching and that a regex segment matching k children yields k
qualified paths.  The code escapes the segment before matching
(`re.fullmatch(re.escape(...), ...)`), which reduces regex matching to
literal equality: the regex segment `Temp.*` full-matches both children
`Temperature` and `Temp2` of `tempFrontier`, yet `find_nodes` returns no
path at all. -/
theorem c1_find_nodes_regex_escaped_code_bug :
    dotStarFullmatch "Temp".data "Temperature".data = true ∧
    dotStarFullmatch "Temp".data "Temp2".data = true ∧
    find_nodes tempFrontier "Temp.*".data = .ok [] := by decide

/-- C10: for a non-empty path whose segments all carry a `ns:Name`
qualifier, `find_node_name_space_index` computes zero unresolved segments,
slices the resolved part as `path[:-0]` which is the empty list, and hands
the empty unresolved tail to `__find_nodes`, whose entry assertion fails:
the call raises instead of returning the already-qualified path. -/
theorem c10_fully_qualified_path_raises (root : OpcNode) (path : List Chars)
    (hne : path ≠ []) (hq : ∀ s ∈ path, 2 ≤ (pySplit s ':').length) :
    (path.filter (fun u => (pySplit u ':').length < 2)).length = 0 ∧
    pySliceToNeg path ((path.filter (fun u => (pySplit u ':').length < 2)).length) = [] ∧
    find_node_name_space_index root path = .exn .assertionError := by
  clear hne
  have hfil : path.filter (fun u => (pySplit u ':').length < 2) = [] := by
    rw [List.filter_eq_nil_iff]
    intro a ha
    have := hq a ha
    simp only [decide_eq_true_eq]
    omega
  refine ⟨by rw [hfil]; rfl, by rw [hfil]; rfl, ?_⟩
  unfold find_node_name_space_index
  rw [hfil]
  simp [pySliceToNeg, get_child, findNodesChecked, List.drop_length]

/-- Witness for C10 at the concrete fully-qualified path
`["0:Objects", "2:Device"]`. -/
theorem c10_fully_qualified_path_raises_witness :
    ["0:Objects".data, "2:Device".data] ≠ ([] : List Chars) ∧
    (["0:Objects".data, "2:Device".data].filter
      (fun u => (pySplit u ':').length < 2)).length = 0 ∧
    pySliceToNeg ["0:Objects".data, "2:Device".data]
      ((["0:Objects".data, "2:Device".data].filter
        (fun u => (pySplit u ':').length < 2)).length) = [] ∧
    find_node_name_space_index tempFrontier ["0:Objects".data, "2:Device".data] =
      .exn .assertionError :=
  ⟨by decide,
   c10_fully_qualified_path_raises tempFrontier ["0:Objects".data, "2:Device".data]
     (by decide) (by decide)⟩

/-! ## NodeBindings, reset and teardown (DeviceRegistry / SubscriptionManager) -/

/-- A node binding as the per-key dict of `device.values[section]`:
`valid` is absent (`none`) until first load, `sub_on` and `subscription`
track the monitored item, `nodeId` is the cached `node['id']` string
(abstracted to the numeric node identifier). -/
structure NodeBinding where
  key : Chars
  valid : Option Bool
  subOn : Bool
  subscriptionHandle : Option Nat
  nodeId : Option Nat
deriving DecidableEq, Repr

/-- `__reset_node` (lines 148-157): mark the binding invalid; if it holds a
monitored item, call `unsubscribe` (only when the shared subscription
object exists) and clear handle and flag.  The returned list records the
unsubscribe calls issued. -/
def resetNode (subPresent : Bool) (b : NodeBinding) : NodeBinding × List (Option Nat) :=
  let b1 : NodeBinding := { b with valid := some false }
  if b1.subOn then
    ({ b1 with subscriptionHandle := none, subOn := false },
     if subPresent then [b.subscriptionHandle] else [])
  else (b1, [])

/-- Reset every binding of a section list, concatenating the unsubscribe
calls in order. -/
def resetBindingList (subPresent : Bool) : List NodeBinding → List NodeBinding × List (Option Nat)
  | [] => ([], [])
  | b :: bs =>
    let p := resetNode subPresent b
    let q := resetBindingList subPresent bs
    (p.1 :: q.1, p.2 ++ q.2)

/-- A discovered device: registry entry produced by `_create_new_devices`.
Converter instances and the merged config are outside the model. -/
structure Device where
  name : Chars
  path : List Chars
  attributes : List NodeBinding
  timeseries : List NodeBinding
deriving DecidableEq, Repr

/-- Reset both sections of one device (the body of the `for section in
('attributes', 'timeseries')` loop of `__reset_nodes`). -/
def resetDeviceBindings (subPresent : Bool) (d : Device) : Device × List (Option Nat) :=
  let a := resetBindingList subPresent d.attributes
  let t := resetBindingList subPresent d.timeseries
  ({ d with attributes := a.1, timeseries := t.1 }, a.2 ++ t.2)

/-- Connector state relevant to teardown: the device registry and whether
the shared `self.__subscription` object exists. -/
structure ConnState where
  devices : List Device
  subscription : Bool
deriving DecidableEq, Repr

/-- Device loop of `__reset_nodes` (lines 159-164): reset the bindings of
every device whose name matches (all devices when `deviceName` is
`none`). -/
def resetDevicesLoop (deviceName : Option Chars) (subPresent : Bool) :
    List Device → List Device × List (Option Nat)
  | [] => ([], [])
  | d :: ds =>
    let hit := match deviceName with
      | none => true
      | some n => d.name == n
    let p := if hit then resetDeviceBindings subPresent d else (d, [])
    let q := resetDevicesLoop deviceName subPresent ds
    (p.1 :: q.1, p.2 ++ q.2)

/-- `__reset_nodes` (lines 159-171): reset matching devices; the shared
subscription object is deleted only when `device_name is None` (full
reset), never on a per-device teardown. -/
def reset_nodes (deviceName : Option Chars) (st : ConnState) :
    ConnState × List (Option Nat) :=
  let p := resetDevicesLoop deviceName st.subscription st.devices
  ({ devices := p.1,
     subscription := if deviceName.isNone then false else st.subscription }, p.2)

/-- A binding that has been fully torn down. -/
def bindingIsReset (b : NodeBinding) : Bool :=
  b.valid == some false && !b.subOn && b.subscriptionHandle == none

/-- A binding that has been invalidated and unsubscribed. -/
def bindingInvalidated (b : NodeBinding) : Bool :=
  b.valid == some false && !b.subOn

/-- Reachable-state invariant (spec section 3): a binding not currently
subscribed holds no monitored-item handle. -/
def bindingWF (b : NodeBinding) : Bool :=
  b.subOn || b.subscriptionHandle == none

def deviceBindings (d : Device) : List NodeBinding := d.attributes ++ d.timeseries

def deviceBindingsReset (d : Device) : Bool := (deviceBindings d).all bindingIsReset

def stateWF (st : ConnState) : Bool :=
  st.devices.all (fun d => (deviceBindings d).all bindingWF)

/-- Number of currently subscribed bindings across the whole registry. -/
def subscribedCount (st : ConnState) : Nat :=
  (st.devices.map (fun d => (deviceBindings d).countP (·.subOn))).sum

/-- Number of currently subscribed bindings of the devices named `n`. -/
def subscribedCountOf (n : Chars) (st : ConnState) : Nat :=
  ((st.devices.filter (fun d => d.name == n)).map
    (fun d => (deviceBindings d).countP (·.subOn))).sum

/-! ## Loading device nodes (`_load_devices_nodes`, C2 / C5) -/

/-- Error classes that can abort the resolution of one binding. -/
inductive UaErr where
  | badNodeIdUnknown
  | badConnectionClosed
  | badInvalidState
  | badAttributeIdInvalid
  | badCommunicationError
  | badOutOfService
  | badNoMatch
  | badUnexpectedError
  | uaStatusCodeErrors
  | badWaitingForInitialData
  | otherStatusCodeError
  | otherException
  | connectionError
deriving DecidableEq, Repr

/-- The "node not found" class: the exception tuple caught at lines
505-508. -/
def nodeNotFoundClass : UaErr → Bool
  | .badNodeIdUnknown => true
  | .badConnectionClosed => true
  | .badInvalidState => true
  | .badAttributeIdInvalid => true
  | .badCommunicationError => true
  | .badOutOfService => true
  | .badNoMatch => true
  | .badUnexpectedError => true
  | .uaStatusCodeErrors => true
  | .badWaitingForInitialData => true
  | _ => false

/-- Outcome of resolving one binding's path against the live server. -/
inductive Resolution where
  | found (nodeId : Nat)
  | failed (e : UaErr)
deriving DecidableEq, Repr

/-- Configuration flags read inside `_load_devices_nodes`. -/
structure LoadCtx where
  enableSubscriptions : Bool
  stopped : Bool
deriving DecidableEq, Repr

/-- State threaded through `_load_devices_nodes`: the shared subscription,
a fresh-handle counter standing for the server-assigned monitored-item
handles, the `device.nodes` poll list built so far, and the subscribe /
unsubscribe calls issued. -/
structure LoadSt where
  subscription : Bool
  nextHandle : Nat
  polledNodes : List (Nat × Chars)
  subscribeEvents : List Nat
  unsubscribeEvents : List (Option Nat)
deriving DecidableEq, Repr

/-- Body of the innermost loop of `_load_devices_nodes` (lines 463-520)
for one binding, given the resolution outcome `r`.  On success the node is
appended to `device.nodes` unconditionally; the subscription/validity
block runs only under `node.get('valid') is None or (node.get('valid')
and not self.__enable_subscriptions)`.  A `ConnectionError` is re-raised;
every other exception resets just this binding (when it was not already
invalid). -/
def loadBindingStep (ctx : LoadCtx) (st : LoadSt) (b : NodeBinding) (r : Resolution) :
    PyResult (LoadSt × NodeBinding) :=
  match r with
  | .failed .connectionError => .exn .connectionError
  | .failed _ =>
    if b.valid.getD true then
      let p := resetNode st.subscription b
      .ok ({ st with unsubscribeEvents := st.unsubscribeEvents ++ p.2 }, p.1)
    else .ok (st, b)
  | .found nodeId =>
    let st1 := { st with polledNodes := st.polledNodes ++ [(nodeId, b.key)] }
    if b.valid.isNone || (b.valid.getD false && !ctx.enableSubscriptions) then
      if ctx.enableSubscriptions && !b.subOn && !ctx.stopped then
        let st2 := if st1.subscription then st1 else { st1 with subscription := true }
        let h := st2.nextHandle
        .ok ({ st2 with nextHandle := h + 1, subscribeEvents := st2.subscribeEvents ++ [h] },
             { b with subscriptionHandle := some h, subOn := true, nodeId := some nodeId,
                      valid := some true })
      else .ok (st1, { b with valid := some true })
    else .ok (st1, b)

/-- The binding loop of `_load_devices_nodes` over a list of bindings
paired with their resolution outcomes: a raised `ConnectionError`
propagates, everything else continues with the next binding. -/
def loadBindings (ctx : LoadCtx) :
    List (NodeBinding × Resolution) → LoadSt → PyResult (LoadSt × List NodeBinding)
  | [], st => .ok (st, [])
  | (b, r) :: rest, st =>
    match loadBindingStep ctx st b r with
    | .exn e => .exn e
    | .ok p =>
      match loadBindings ctx rest p.1 with
      | .exn e => .exn e
      | .ok q => .ok (q.1, p.2 :: q.2)

/-- Map over the value of a `PyResult`, preserving a raised exception. -/
def pyMap {α β : Type} (f : α → β) : PyResult α → PyResult β
  | .ok v => .ok (f v)
  | .exn e => .exn e

/-- A binding as `__reset_node` leaves it after error recovery: invalid,
unsubscribed, handle cleared. -/
def c2ResetBinding : NodeBinding :=
  { key := "temp".data, valid := some false, subOn := false,
    subscriptionHandle := none, nodeId := none }

def c2Ctx : LoadCtx := { enableSubscriptions := true, stopped := false }

def c2St : LoadSt :=
  { subscription := false, nextHandle := 0, polledNodes := [],
    subscribeEvents := [], unsubscribeEvents := [] }

/-- C2: the claim (and spec) say a binding reset by error recovery is
marked valid again and re-subscribed on the next successful resolution.
The code's gate `node.get('valid') is None or (node.get('valid') and not
self.__enable_subscriptions)` is false for `valid == False`, so a reset
binding is only re-appended to the poll list: it stays invalid, no shared
subscription is created and no monitored item is registered. -/
theorem c2_reset_binding_never_revalidated_code_bug :
    loadBindingStep c2Ctx c2St c2ResetBinding (.found 42) =
      .ok ({ c2St with polledNodes := [(42, "temp".data)] }, c2ResetBinding) ∧
    c2ResetBinding.valid = some false ∧
    c2ResetBinding.subOn = false ∧
    c2Ctx.enableSubscriptions = true := by decide

/-! ## Teardown lemmas (C4) -/

theorem resetNode_invalidated (s : Bool) (b : NodeBinding) :
    bindingInvalidated (resetNode s b).1 = true := by
  cases hb : b.subOn <;> simp [resetNode, bindingInvalidated, hb]

theorem resetNode_isReset (s : Bool) (b : NodeBinding) (h : bindingWF b = true) :
    bindingIsReset (resetNode s b).1 = true := by
  cases hb : b.subOn <;> simp [resetNode, bindingIsReset, hb] <;>
    simp [bindingWF, hb] at h <;> simp [h]

theorem resetNode_noop (s : Bool) (b : NodeBinding) (h : bindingIsReset b = true) :
    resetNode s b = (b, []) := by
  cases b with
  | mk key valid subOn handle nodeId =>
    simp [bindingIsReset] at h
    simp_all [resetNode]

theorem resetNode_events (b : NodeBinding) :
    ((resetNode true b).2).length = if b.subOn then 1 else 0 := by
  cases hb : b.subOn <;> simp [resetNode, hb]

theorem resetBindingList_isReset (s : Bool) (bs : List NodeBinding)
    (h : bs.all bindingWF = true) :
    (resetBindingList s bs).1.all bindingIsReset = true := by
  induction bs with
  | nil => simp [resetBindingList]
  | cons b bs ih =>
    simp only [List.all_cons, Bool.and_eq_true] at h
    simp [resetBindingList, resetNode_isReset s b h.1, ih h.2]

theorem resetBindingList_noop (s : Bool) (bs : List NodeBinding)
    (h : bs.all bindingIsReset = true) :
    resetBindingList s bs = (bs, []) := by
  induction bs with
  | nil => simp [resetBindingList]
  | cons b bs ih =>
    simp only [List.all_cons, Bool.and_eq_true] at h
    simp [resetBindingList, resetNode_noop s b h.1, ih h.2]

theorem resetBindingList_events (bs : List NodeBinding) :
    ((resetBindingList true bs).2).length = bs.countP (·.subOn) := by
  induction bs with
  | nil => simp [resetBindingList]
  | cons b bs ih =>
    simp [resetBindingList, List.countP_cons, ih, resetNode_events]
    cases hb : b.subOn <;> simp [hb] <;> omega

theorem resetDeviceBindings_isReset (s : Bool) (d : Device)
    (h : (deviceBindings d).all bindingWF = true) :
    deviceBindingsReset (resetDeviceBindings s d).1 = true := by
  rw [deviceBindings, List.all_append, Bool.and_eq_true] at h
  simp only [deviceBindingsReset, resetDeviceBindings, deviceBindings, List.all_append,
    Bool.and_eq_true]
  exact ⟨resetBindingList_isReset s _ h.1, resetBindingList_isReset s _ h.2⟩

theorem resetDeviceBindings_noop (s : Bool) (d : Device)
    (h : deviceBindingsReset d = true) :
    resetDeviceBindings s d = (d, []) := by
  simp [deviceBindingsReset, deviceBindings, List.all_append] at h
  cases d
  simp_all [resetDeviceBindings, resetBindingList_noop]

theorem resetDeviceBindings_events (d : Device) :
    ((resetDeviceBindings true d).2).length = (deviceBindings d).countP (·.subOn) := by
  simp [resetDeviceBindings, deviceBindings, List.countP_append, resetBindingList_events]

theorem resetDevicesLoop_devices (n : Chars) (s : Bool) (ds : List Device) :
    (resetDevicesLoop (some n) s ds).1 =
      ds.map (fun d => if d.name == n then (resetDeviceBindings s d).1 else d) := by
  induction ds with
  | nil => simp [resetDevicesLoop]
  | cons d ds ih =>
    cases h : (d.name == n) with
    | false =>
      have h2 : ¬ d.name = n := by simpa using h
      simp [resetDevicesLoop, h, ih, h2]
    | true =>
      have h2 : d.name = n := by simpa using h
      simp [resetDevicesLoop, h, ih, h2]

theorem resetDevicesLoop_noop (n : Chars) (s : Bool) (ds : List Device)
    (h : ∀ d ∈ ds, d.name = n → resetDeviceBindings s d = (d, [])) :
    resetDevicesLoop (some n) s ds = (ds, []) := by
  induction ds with
  | nil => simp [resetDevicesLoop]
  | cons d ds ih =>
    have tail := ih (fun d' hd' => h d' (List.mem_cons_of_mem d hd'))
    cases hm : (d.name == n) with
    | false => simp [resetDevicesLoop, hm, tail]
    | true =>
      have := h d (List.mem_cons_self d ds) (by simpa using hm)
      simp [resetDevicesLoop, hm, this, tail]

theorem resetDevicesLoop_events (n : Chars) (ds : List Device) :
    ((resetDevicesLoop (some n) true ds).2).length =
      ((ds.filter (fun d => d.name == n)).map
        (fun d => (deviceBindings d).countP (·.subOn))).sum := by
  induction ds with
  | nil => simp [resetDevicesLoop]
  | cons d ds ih =>
    cases h : (d.name == n) <;>
      simp [resetDevicesLoop, h, List.filter_cons, ih, resetDeviceBindings_events]

/-- C4 amended: tearing down a device name resets (invalidates,
unsubscribes, clears the handle of) every binding of the devices with that
name and leaves all other devices untouched; when the subscription object
exists, exactly one unsubscribe call is issued per previously subscribed
binding of that name; but the shared subscription reference is NOT
detached (a per-device `__reset_nodes` call never deletes it, only a full
reset does); a repeated teardown of the same absent name — which the scan
loop does perform on every later scan — is a no-op: no further unsubscribe
calls and an unchanged state. -/
theorem c4_device_teardown_amended (st : ConnState) (n : Chars) (hwf : stateWF st = true) :
    (reset_nodes (some n) st).1.devices =
      st.devices.map
        (fun d => if d.name == n then (resetDeviceBindings st.subscription d).1 else d) ∧
    (∀ d ∈ (reset_nodes (some n) st).1.devices, d.name = n → deviceBindingsReset d = true) ∧
    (reset_nodes (some n) st).1.subscription = st.subscription ∧
    (st.subscription = true →
      ((reset_nodes (some n) st).2).length = subscribedCountOf n st) ∧
    reset_nodes (some n) (reset_nodes (some n) st).1 = ((reset_nodes (some n) st).1, []) := by
  rw [stateWF, List.all_eq_true] at hwf
  have hdev : (reset_nodes (some n) st).1.devices =
      st.devices.map
        (fun d => if d.name == n then (resetDeviceBindings st.subscription d).1 else d) := by
    simp [reset_nodes, resetDevicesLoop_devices]
  have hreset : ∀ d ∈ (reset_nodes (some n) st).1.devices,
      d.name = n → deviceBindingsReset d = true := by
    intro d hd hname
    rw [hdev] at hd
    obtain ⟨d0, hd0, heq⟩ := List.mem_map.1 hd
    cases hm : (d0.name == n) with
    | true =>
      rw [hm] at heq
      simp only [if_true] at heq
      rw [← heq]
      exact resetDeviceBindings_isReset st.subscription d0 (by simpa using hwf d0 hd0)
    | false =>
      rw [hm] at heq
      simp only [if_false, Bool.false_eq_true] at heq
      rw [← heq] at hname
      exact absurd hname (by simpa using hm)
  refine ⟨hdev, hreset, by simp [reset_nodes], ?_, ?_⟩
  · intro hsub
    have h2 : (reset_nodes (some n) st).2 =
        (resetDevicesLoop (some n) st.subscription st.devices).2 := rfl
    rw [h2, hsub, resetDevicesLoop_events]
    rfl
  · have hnoop : resetDevicesLoop (some n) (reset_nodes (some n) st).1.subscription
        (reset_nodes (some n) st).1.devices = ((reset_nodes (some n) st).1.devices, []) := by
      apply resetDevicesLoop_noop
      intro d hd hname
      exact resetDeviceBindings_noop _ d (hreset d hd hname)
    conv_lhs => rw [reset_nodes]
    rw [hnoop]
    simp

/-- A subscribed binding of the single device `D`, the only subscribed
binding in `c4State`. -/
def c4Binding : NodeBinding :=
  { key := "t".data, valid := some true, subOn := true,
    subscriptionHandle := some 5, nodeId := some 7 }

/-- A registry holding one device `D` whose only binding is subscribed,
with the shared subscription object attached. -/
def c4State : ConnState :=
  { devices := [{ name := "D".data, path := [], attributes := [],
                  timeseries := [c4Binding] }],
    subscription := true }

/-- C4 counterexample: after tearing down device `D` — the only device
with subscribed bindings — zero subscribed bindings remain globally, yet
the shared subscription reference is not detached, contradicting the
claim. -/
theorem c4_subscription_not_detached_counterexample :
    subscribedCount (reset_nodes (some "D".data) c4State).1 = 0 ∧
    ¬ ((reset_nodes (some "D".data) c4State).1.subscription = false) := by decide

/-- Witness for the amended C4 theorem at the concrete state `c4State`. -/
theorem c4_device_teardown_amended_witness :
    stateWF c4State = true ∧
    ((reset_nodes (some "D".data) c4State).1.devices =
      c4State.devices.map
        (fun d => if d.name == "D".data
          then (resetDeviceBindings c4State.subscription d).1 else d) ∧
    (∀ d ∈ (reset_nodes (some "D".data) c4State).1.devices,
      d.name = "D".data → deviceBindingsReset d = true) ∧
    (reset_nodes (some "D".data) c4State).1.subscription = c4State.subscription ∧
    (c4State.subscription = true →
      ((reset_nodes (some "D".data) c4State).2).length =
        subscribedCountOf "D".data c4State) ∧
    reset_nodes (some "D".data) (reset_nodes (some "D".data) c4State).1 =
      ((reset_nodes (some "D".data) c4State).1, [])) :=
  ⟨by decide, c4_device_teardown_amended c4State "D".data (by decide)⟩

/-- C5: during `_load_devices_nodes`, a "node not found"-class error on one
binding resets only that binding — it comes out invalidated and
unsubscribed, the only state change is the recorded unsubscribe call — and
the remaining bindings are processed exactly as they would have been,
while a raw `ConnectionError` propagates out of the whole load cycle. -/
theorem c5_binding_error_isolation (ctx : LoadCtx) (st : LoadSt) (b : NodeBinding)
    (e : UaErr) (rest : List (NodeBinding × Resolution))
    (hcls : nodeNotFoundClass e = true) (hvalid : b.valid.getD true = true) :
    bindingInvalidated (resetNode st.subscription b).1 = true ∧
    loadBindings ctx ((b, .failed e) :: rest) st =
      pyMap (fun p => (p.1, (resetNode st.subscription b).1 :: p.2))
        (loadBindings ctx rest
          { st with unsubscribeEvents :=
              st.unsubscribeEvents ++ (resetNode st.subscription b).2 }) ∧
    loadBindings ctx ((b, .failed .connectionError) :: rest) st = .exn .connectionError := by
  refine ⟨resetNode_invalidated _ b, ?_, ?_⟩
  · have hstep : loadBindingStep ctx st b (.failed e) =
        .ok ({ st with unsubscribeEvents :=
                 st.unsubscribeEvents ++ (resetNode st.subscription b).2 },
             (resetNode st.subscription b).1) := by
      cases e <;> simp_all [loadBindingStep, nodeNotFoundClass]
    rw [loadBindings, hstep]
    cases hres : loadBindings ctx rest
        { st with unsubscribeEvents :=
            st.unsubscribeEvents ++ (resetNode st.subscription b).2 } <;>
      simp [pyMap, hres]
  · simp [loadBindings, loadBindingStep]

def c5Ctx : LoadCtx := { enableSubscriptions := true, stopped := false }

def c5St : LoadSt :=
  { subscription := true, nextHandle := 4, polledNodes := [],
    subscribeEvents := [], unsubscribeEvents := [] }

def c5Binding : NodeBinding :=
  { key := "k".data, valid := some true, subOn := true,
    subscriptionHandle := some 3, nodeId := some 9 }

def c5Next : NodeBinding :=
  { key := "m".data, valid := some true, subOn := true,
    subscriptionHandle := some 2, nodeId := some 8 }

def c5Rest : List (NodeBinding × Resolution) := [(c5Next, .found 8)]

/-- Witness for C5 at a concrete binding list with a
`BadNodeIdUnknown` failure followed by a successful binding. -/
theorem c5_binding_error_isolation_witness :
    nodeNotFoundClass .badNodeIdUnknown = true ∧
    c5Binding.valid.getD true = true ∧
    (bindingInvalidated (resetNode c5St.subscription c5Binding).1 = true ∧
    loadBindings c5Ctx ((c5Binding, .failed .badNodeIdUnknown) :: c5Rest) c5St =
      pyMap (fun p => (p.1, (resetNode c5St.subscription c5Binding).1 :: p.2))
        (loadBindings c5Ctx c5Rest
          { c5St with unsubscribeEvents :=
              c5St.unsubscribeEvents ++ (resetNode c5St.subscription c5Binding).2 }) ∧
    loadBindings c5Ctx ((c5Binding, .failed .connectionError) :: c5Rest) c5St =
      .exn .connectionError) :=
  ⟨by decide, by decide,
   c5_binding_error_isolation c5Ctx c5St c5Binding .badNodeIdUnknown c5Rest
     (by decide) (by decide)⟩

/-! ## Device scanning (`_create_new_devices`, C3) -/

/-- What one mapping template yields from the live server during a scan:
the device names produced by `_get_device_info_by_pattern` for the
`deviceNameExpression`, and the instance paths returned by `find_nodes`
for the `deviceNodePattern`.  Holding these fixed across two scans models
an unchanged address space. -/
structure MappingResolution where
  deviceNames : List Chars
  nodes : List (List Chars)
deriving DecidableEq, Repr

/-- The `Device(path=node, name=device_name, ...)` constructed at lines
443-448 (converters and merged config are outside the model). -/
def mkScannedDevice (n : Chars) (p : List Chars) : Device :=
  { name := n, path := p, attributes := [], timeseries := [] }

/-- The devices appended by `_create_new_devices` (lines 427-450):
`existing_devices` is computed once before the loop; for every scanned
name not in it, one `Device` is appended per resolved node of the
template. -/
def scanAdded (existing : List Chars) (ts : List MappingResolution) : List Device :=
  ts.flatMap (fun t => t.deviceNames.flatMap (fun n =>
    if existing.contains n then []
    else t.nodes.map (fun p => mkScannedDevice n p)))

/-- `_create_new_devices` (lines 423-456) as a transformation of the
device list `self.__device_nodes`: purely appending; the trailing loop
calling `__reset_nodes` on absent names (lines 452-454, see C4) mutates
bindings but never removes a list entry. -/
def _create_new_devices (ts : List MappingResolution) (ds : List Device) : List Device :=
  ds ++ scanAdded (ds.map (·.name)) ts

theorem charsContainsIff (l : List Chars) (x : Chars) : l.contains x = true ↔ x ∈ l :=
  List.elem_iff

theorem scanAdded_fresh (existing : List Chars) (ts : List MappingResolution) :
    ∀ d ∈ scanAdded existing ts, existing.contains d.name = false := by
  intro d hd
  rw [scanAdded, List.mem_flatMap] at hd
  obtain ⟨t, _, hd⟩ := hd
  rw [List.mem_flatMap] at hd
  obtain ⟨n, _, hd⟩ := hd
  cases hc : existing.contains n with
  | true => rw [hc] at hd; simp at hd
  | false =>
    rw [hc] at hd
    simp only [Bool.false_eq_true, if_false, List.mem_map] at hd
    obtain ⟨p, _, rfl⟩ := hd
    exact hc

theorem scanAdded_covers (existing : List Chars) (ts : List MappingResolution)
    (t : MappingResolution) (n : Chars) (ht : t ∈ ts) (hn : n ∈ t.deviceNames)
    (hc : existing.contains n = false) (hnodes : t.nodes ≠ []) :
    n ∈ (scanAdded existing ts).map (·.name) := by
  cases hns : t.nodes with
  | nil => exact absurd hns hnodes
  | cons p ps =>
    rw [List.mem_map]
    refine ⟨mkScannedDevice n p, ?_, rfl⟩
    rw [scanAdded, List.mem_flatMap]
    refine ⟨t, ht, ?_⟩
    rw [List.mem_flatMap]
    refine ⟨n, hn, ?_⟩
    rw [hc]
    simp [hns, mkScannedDevice]

theorem c3_second_scan_adds_nothing (ts : List MappingResolution) (ds : List Device) :
    scanAdded ((_create_new_devices ts ds).map (·.name)) ts = [] := by
  rw [scanAdded, List.flatMap_eq_nil_iff]
  intro t ht
  rw [List.flatMap_eq_nil_iff]
  intro n hn
  cases hc : (_create_new_devices ts ds).map (·.name) |>.contains n with
  | true => simp [hc]
  | false =>
    simp only [Bool.false_eq_true, if_false]
    rw [List.map_eq_nil_iff]
    by_contra hnodes
    have hc2 : (ds.map (·.name)).contains n = false := by
      cases hx : (ds.map (·.name)).contains n with
      | false => rfl
      | true =>
        have hmemA : n ∈ ds.map (·.name) := (charsContainsIff _ _).1 hx
        have htr : ((_create_new_devices ts ds).map (·.name)).contains n = true := by
          rw [charsContainsIff, _create_new_devices, List.map_append, List.mem_append]
          exact Or.inl hmemA
        rw [htr] at hc
        exact absurd hc (by simp)
    have hmem := scanAdded_covers (ds.map (·.name)) ts t n ht hn hc2 hnodes
    have htrue : ((_create_new_devices ts ds).map (·.name)).contains n = true := by
      rw [charsContainsIff, _create_new_devices, List.map_append, List.mem_append]
      exact Or.inr hmem
    rw [htrue] at hc
    exact Bool.true_eq_false.mp hc

/-- C3 amended: a scan only appends devices (the original entries survive
in place, nothing is removed), every appended device carries a name that
was not previously in the registry, and re-scanning with unchanged
resolver results (unchanged address space) appends nothing — the device
list is a fixed point of the second scan.  Uniqueness of names, however,
does not hold: a template resolving to several nodes appends one device
per node, all with the same name (see the counterexample). -/
theorem c3_scan_idempotent_amended (ts : List MappingResolution) (ds : List Device) :
    _create_new_devices ts (_create_new_devices ts ds) = _create_new_devices ts ds ∧
    (_create_new_devices ts ds).take ds.length = ds ∧
    (∀ d ∈ _create_new_devices ts ds,
      d ∈ ds ∨ (ds.map (·.name)).contains d.name = false) := by
  refine ⟨?_, ?_, ?_⟩
  · conv_lhs => rw [_create_new_devices]
    rw [c3_second_scan_adds_nothing, List.append_nil]
  · rw [_create_new_devices, List.take_left]
  · intro d hd
    rw [_create_new_devices, List.mem_append] at hd
    cases hd with
    | inl h => exact Or.inl h
    | inr h => exact Or.inr (scanAdded_fresh (ds.map (·.name)) ts d h)

/-- A mapping template whose pattern resolves to two nodes while the name
expression yields the single name `D`. -/
def c3Template : MappingResolution :=
  { deviceNames := ["D".data], nodes := [["1:a".data], ["1:b".data]] }

/-- C3 counterexample: one scan of `c3Template` over an empty registry
creates two `Device` entries that both carry the name `D`, so a device
name is not unique within the registry after a single scan. -/
theorem c3_duplicate_names_counterexample :
    ((_create_new_devices [c3Template] []).map (·.name)).count "D".data = 2 := by decide

/-- Witness for the amended C3 theorem at the concrete template
`c3Template` over a one-device registry. -/
theorem c3_scan_idempotent_amended_witness :
    (_create_new_devices [c3Template]
        (_create_new_devices [c3Template] [mkScannedDevice "E".data []]) =
      _create_new_devices [c3Template] [mkScannedDevice "E".data []] ∧
    (_create_new_devices [c3Template] [mkScannedDevice "E".data []]).take 1 =
      [mkScannedDevice "E".data []] ∧
    (∀ d ∈ _create_new_devices [c3Template] [mkScannedDevice "E".data []],
      d ∈ [mkScannedDevice "E".data []] ∨
        ([mkScannedDevice "E".data []].map (·.name)).contains d.name = false)) := by
  have h := c3_scan_idempotent_amended [c3Template] [mkScannedDevice "E".data []]
  exact ⟨h.1, h.2.1, h.2.2⟩

/-! ## Connection retry (`retry_with_backoff`, C6) -/

/-- Trace of one `retry_with_backoff` run: the returned value (None after
exhausting the attempts), the sleeps performed and the number of
invocations of the wrapped operation. -/
structure RetryTrace (α : Type) where
  result : Option α
  delays : List Nat
  calls : Nat
deriving DecidableEq, Repr

/-- The `for attempt in range(max_retries)` loop of `retry_with_backoff`
(lines 277-287), with the remaining attempts as fuel: each failing attempt
sleeps the current delay and multiplies it by the backoff factor; a
success returns immediately; exhausting the range returns `None`.
`outcome attempt` is the result of `await func(*args)` on that attempt
(`none` models an exception). -/
def retryAux {α : Type} (outcome : Nat → Option α) (backoffFactor : Nat) :
    Nat → Nat → Nat → RetryTrace α
  | 0, _, _ => { result := none, delays := [], calls := 0 }
  | fuel + 1, attempt, delay =>
    match outcome attempt with
    | some v => { result := some v, delays := [], calls := 1 }
    | none =>
      let t := retryAux outcome backoffFactor fuel (attempt + 1) (delay * backoffFactor)
      { result := t.result, delays := delay :: t.delays, calls := t.calls + 1 }

/-- `retry_with_backoff(func, *args, max_retries=8, initial_delay=1,
backoff_factor=2)`. -/
def retry_with_backoff {α : Type} (outcome : Nat → Option α)
    (maxRetries initialDelay backoffFactor : Nat) : RetryTrace α :=
  retryAux outcome backoffFactor maxRetries 0 initialDelay

theorem retryAux_allFail {α : Type} (f : Nat) :
    ∀ (fuel a d : Nat), retryAux (fun _ => (none : Option α)) f fuel a d =
      { result := none, delays := (List.range fuel).map (fun k => d * f ^ k),
        calls := fuel } := by
  intro fuel
  induction fuel with
  | zero => intro a d; rfl
  | succ m ih =>
    intro a d
    have hmul : ∀ k : Nat, d * f * f ^ k = d * f ^ (k + 1) := by
      intro k
      rw [pow_succ]
      ring
    simp [retryAux, ih (a + 1) (d * f), List.range_succ_eq_map, List.map_map,
      Function.comp, hmul]

theorem retryAux_calls_le {α : Type} (outcome : Nat → Option α) (f : Nat) :
    ∀ (fuel a d : Nat), (retryAux outcome f fuel a d).calls ≤ fuel := by
  intro fuel
  induction fuel with
  | zero => intro a d; exact Nat.le_refl 0
  | succ m ih =>
    intro a d
    cases h : outcome a <;> simp [retryAux, h]
    exact ih (a + 1) (d * f)

/-- C6: for `retry_with_backoff` with initial delay `d`, factor `f` and
`n` attempts: when every attempt fails the operation is invoked exactly
`n` times, the function returns the failure sentinel `None`, and the sleep
before the k-th retry is `d * f ^ (k-1)` (the k-th recorded delay, index
k-1, equals `d * f ^ (k-1)`); for any outcome the operation is invoked at
most `n` times; and with `d > 0`, `f > 1` the recorded delays strictly
increase. -/
theorem c6_retry_backoff {α : Type} (outcome : Nat → Option α) (n d f : Nat)
    (hd : 0 < d) (hf : 1 < f) :
    (retry_with_backoff (fun _ => (none : Option α)) n d f).result = none ∧
    (retry_with_backoff (fun _ => (none : Option α)) n d f).delays =
      (List.range n).map (fun k => d * f ^ k) ∧
    (retry_with_backoff (fun _ => (none : Option α)) n d f).calls = n ∧
    (retry_with_backoff outcome n d f).calls ≤ n ∧
    (∀ i j, i < j → j < n →
      (retry_with_backoff (fun _ => (none : Option α)) n d f).delays.getD i 0 <
        (retry_with_backoff (fun _ => (none : Option α)) n d f).delays.getD j 0) := by
  have hall := retryAux_allFail (α := α) f n 0 d
  rw [retry_with_backoff, hall]
  refine ⟨rfl, rfl, rfl, retryAux_calls_le outcome f n 0 d, ?_⟩
  intro i j hij hjn
  have hget : ∀ k, k < n →
      ((List.range n).map (fun k => d * f ^ k)).getD k 0 = d * f ^ k := by
    intro k hk
    rw [List.getD_eq_getElem?_getD, List.getElem?_map, List.getElem?_range hk]
    rfl
  rw [hget i (Nat.lt_trans hij hjn), hget j hjn]
  exact (Nat.mul_lt_mul_left hd).2 (Nat.pow_lt_pow_right hf hij)

/-- An operation that succeeds on its second invocation. -/
def c6Outcome : Nat → Option Nat := fun k => if k = 1 then some 7 else none

/-- Witness for C6 at `n = 4`, `d = 2`, `f = 3`. -/
theorem c6_retry_backoff_witness :
    0 < 2 ∧ 1 < 3 ∧
    ((retry_with_backoff (fun _ => (none : Option Nat)) 4 2 3).result = none ∧
    (retry_with_backoff (fun _ => (none : Option Nat)) 4 2 3).delays =
      (List.range 4).map (fun k => 2 * 3 ^ k) ∧
    (retry_with_backoff (fun _ => (none : Option Nat)) 4 2 3).calls = 4 ∧
    (retry_with_backoff c6Outcome 4 2 3).calls ≤ 4 ∧
    (∀ i j, i < j → j < 4 →
      (retry_with_backoff (fun _ => (none : Option Nat)) 4 2 3).delays.getD i 0 <
        (retry_with_backoff (fun _ => (none : Option Nat)) 4 2 3).delays.getD j 0)) :=
  ⟨by decide, by decide, c6_retry_backoff c6Outcome 4 2 3 (by decide) (by decide)⟩

/-! ## RPC handling (`server_side_rpc_handler`, C7 / C8) -/

/-- A JSON-ish value appearing in an RPC reply payload. -/
inductive RpcVal where
  | str (s : Chars)
  | dict (d : List (Chars × Chars))
deriving DecidableEq, Repr

/-- One `send_rpc_reply` call: the payload dict and the numeric `code` key
(absent when the code sends no code, as in the get/set branch). -/
structure RpcReply where
  content : List (Chars × RpcVal)
  code : Option Nat
deriving DecidableEq, Repr

/-- Outcome of the server-side method invocation performed inside
`__call_method`. -/
inductive CallOutcome where
  | returns (v : Chars)
  | raises (msg : Chars)
deriving DecidableEq, Repr

/-- `__call_method` (lines 716-722) fills its `result` dict: the call
result on success; the stringified exception at key `error` when the
invocation raises — the exception never propagates. -/
def call_method_result : CallOutcome → List (Chars × Chars)
  | .returns v => [("result".data, v)]
  | .raises m => [("error".data, m)]

/-- One entry of the configured `rpc_methods` table. -/
structure RpcEntry where
  method : Chars
  arguments : List Chars
deriving DecidableEq, Repr

/-- The reply sent at lines 660-662 for a matching table entry:
`{method: result, "code": 200}` where `result` is whatever dict
`__call_method` produced — also when the invocation raised. -/
def matchReply (methodName : Chars) (invocation : CallOutcome) : RpcReply :=
  { content := [(methodName, RpcVal.dict (call_method_result invocation))], code := some 200 }

/-- The reply sent at lines 670-672 in the `else` of the entry comparison:
`{"error": "... - Method not found", "code": 404}`. -/
def missReply (methodName : Chars) : RpcReply :=
  { content := [("error".data, RpcVal.str (methodName ++ " - Method not found".data))],
    code := some 404 }

/-- The `for rpc in device.config['rpc_methods']` loop of the
device-method RPC branch (lines 645-672): every iteration sends a reply —
a 200 reply when the entry matches and a 404 reply when it does not. -/
def deviceRpcLoop (methodName : Chars) (invocation : CallOutcome) :
    List RpcEntry → List RpcReply
  | [] => []
  | rpc :: rest =>
    (if rpc.method == methodName then matchReply methodName invocation
     else missReply methodName) :: deviceRpcLoop methodName invocation rest

/-- C7 amended: a device-method RPC request produces one reply per entry
of the configured RPC-method table — a code-200 reply carrying the
invocation outcome dict for each matching entry (also when the invocation
raised, since `__call_method` captures the exception into the dict) and a
code-404 reply for each non-matching entry; an empty table produces no
reply, and no reply ever carries code 500 for an invocation error. -/
theorem c7_one_reply_per_table_entry_amended (methodName : Chars)
    (invocation : CallOutcome) (table : List RpcEntry) :
    (deviceRpcLoop methodName invocation table).length = table.length ∧
    deviceRpcLoop methodName invocation table =
      table.map (fun rpc =>
        if rpc.method == methodName then matchReply methodName invocation
        else missReply methodName) ∧
    (∀ r ∈ deviceRpcLoop methodName invocation table,
      r.code = some 200 ∨ r.code = some 404) := by
  refine ⟨?_, ?_, ?_⟩
  · induction table with
    | nil => rfl
    | cons rpc rest ih => simp [deviceRpcLoop, ih]
  · induction table with
    | nil => rfl
    | cons rpc rest ih => simp [deviceRpcLoop, ih]
  · induction table with
    | nil => intro r hr; simp [deviceRpcLoop] at hr
    | cons rpc rest ih =>
      intro r hr
      rw [deviceRpcLoop, List.mem_cons] at hr
      cases hr with
      | inl h =>
        rw [h]
        cases hm : (rpc.method == methodName) <;>
          simp [hm, matchReply, missReply]
      | inr h => exact ih r h

/-- An RPC-method table with two configured methods. -/
def c7Table : List RpcEntry :=
  [{ method := "restart".data, arguments := [] },
   { method := "calibrate".data, arguments := [] }]

/-- C7 counterexample: a request for `restart` against the two-entry table
`c7Table` produces two replies (a 200 for the matching first entry and a
404 emitted by the loop for the non-matching second entry), not exactly
one; and a raising invocation is still answered with code 200 carrying the
error text, never 500. -/
theorem c7_multiple_replies_counterexample :
    (deviceRpcLoop "restart".data (.returns "done".data) c7Table).length = 2 ∧
    deviceRpcLoop "restart".data (.returns "done".data) c7Table =
      [matchReply "restart".data (.returns "done".data), missReply "restart".data] ∧
    (matchReply "boom".data (.raises "kaput".data)).code = some 200 := by decide

/-- Witness for the amended C7 theorem at the method `calibrate` against
`c7Table`. -/
theorem c7_one_reply_per_table_entry_amended_witness :
    ((deviceRpcLoop "calibrate".data (.returns "ok".data) c7Table).length = 2 ∧
    deviceRpcLoop "calibrate".data (.returns "ok".data) c7Table =
      c7Table.map (fun rpc =>
        if rpc.method == "calibrate".data then matchReply "calibrate".data (.returns "ok".data)
        else missReply "calibrate".data) ∧
    (∀ r ∈ deviceRpcLoop "calibrate".data (.returns "ok".data) c7Table,
      r.code = some 200 ∨ r.code = some 404)) := by
  have h := c7_one_reply_per_table_entry_amended "calibrate".data (.returns "ok".data) c7Table
  exact ⟨by decide, h.2.1, h.2.2⟩

/-- Writes and replies performed by the get/set pseudo-RPC branch. -/
structure GetSetEffects where
  writes : List (Chars × Chars)
  replies : List RpcReply
deriving DecidableEq, Repr

/-- The `set` path of the get/set branch (lines 605-641): split the
params on `;`; when the params contain `ns` the path is the `;`-join of
all but the last piece; the written value is `args_list[2].split('=')[-1]`
— the third piece, not the last (an `IndexError` escapes the handler when
fewer than three pieces exist, producing no reply); `__write_value`
(lines 699-707) swallows failures into the result dict; the reply at
lines 639-641 is `{method: result}` with no `code` key at all.
`writeOutcome` is `none` on a successful write, or the captured error
text. -/
def rpc_set_branch (methodKey params : Chars) (writeOutcome : Option Chars) :
    PyResult GetSetEffects :=
  let argsList := pySplit params ';'
  let fullPath :=
    if containsSub "ns".data params then pyJoin ';' argsList.dropLast
    else pySplitLast (argsList.headD []) '='
  if argsList.length < 3 then .exn .indexError
  else
    let value := pySplitLast (argsList.getD 2 []) '='
    let resultDict : List (Chars × Chars) :=
      match writeOutcome with
      | none => []
      | some e => [("error".data, e)]
    .ok { writes := [(fullPath, value)],
          replies := [{ content := [(methodKey, RpcVal.dict resultDict)], code := none }] }

/-- C8 amended: for a `set` pseudo-RPC whose params contain `ns` and split
into at least three `;`-pieces and whose write succeeds, exactly one write
is issued — to the join of all pieces but the last, writing the THIRD
piece (with any `=`-prefix stripped), which coincides with the last piece
only when there are exactly three — and exactly one reply is sent,
carrying the empty write-outcome dict and no status code (no code 200). -/
theorem c8_set_write_and_reply_amended (methodKey params : Chars)
    (hns : containsSub "ns".data params = true)
    (hlen : 3 ≤ (pySplit params ';').length) :
    rpc_set_branch methodKey params none = .ok
      { writes := [(pyJoin ';' (pySplit params ';').dropLast,
                    pySplitLast ((pySplit params ';').getD 2 []) '=')],
        replies := [{ content := [(methodKey, RpcVal.dict [])], code := none }] } := by
  rw [rpc_set_branch]
  simp only [hns, if_true]
  rw [if_neg (by omega)]

/-- C8 counterexample: for the four-piece params `ns=2;s=a;b;42` the last
piece is `42`, yet the code writes the third piece `b` to the path
`ns=2;s=a;b`, and the single reply carries no `code` key — in particular
not code 200. -/
theorem c8_set_value_not_last_counterexample :
    pySplitLast ((pySplit "ns=2;s=a;b;42".data ';').getLastD []) '=' = "42".data ∧
    rpc_set_branch "opcua_set".data "ns=2;s=a;b;42".data none = .ok
      { writes := [("ns=2;s=a;b".data, "b".data)],
        replies := [{ content := [("opcua_set".data, RpcVal.dict [])], code := none }] } := by
  decide

/-- Witness for the amended C8 theorem at the three-piece params
`ns=2;s=a;26`. -/
theorem c8_set_write_and_reply_amended_witness :
    containsSub "ns".data "ns=2;s=a;26".data = true ∧
    3 ≤ (pySplit "ns=2;s=a;26".data ';').length ∧
    rpc_set_branch "opcua_set".data "ns=2;s=a;26".data none = .ok
      { writes := [(pyJoin ';' (pySplit "ns=2;s=a;26".data ';').dropLast,
                    pySplitLast ((pySplit "ns=2;s=a;26".data ';').getD 2 []) '=')],
        replies := [{ content := [("opcua_set".data, RpcVal.dict [])], code := none }] } :=
  ⟨by decide, by decide,
   c8_set_write_and_reply_amended "opcua_set".data "ns=2;s=a;26".data (by decide) (by decide)⟩

/-! ## Polling (`__poll_nodes`, C9) -/

/-- A device as seen by the poll loop: the `device.nodes` list built by
`_load_devices_nodes`, abstracted to the node identifiers in order. -/
structure PollDevice where
  nodes : List Nat
deriving DecidableEq, Repr

/-- The fan-out loop of `__poll_nodes` (lines 528-535): the running
`converted_nodes_count` accumulator `c` slices
`values[c : c + len(device.nodes)]` for each device in order. -/
def pollFanOut (values : List Nat) : List PollDevice → Nat → List (List Nat)
  | [], _ => []
  | d :: ds, c =>
    ((values.drop c).take d.nodes.length) :: pollFanOut values ds (c + d.nodes.length)

/-- Observable outcome of one `__poll_nodes` cycle: the batched
`read_attributes` calls issued, the value slice handed to each device's
converter, and whether the `'No nodes to poll'` branch was logged. -/
structure PollOutcome where
  reads : List (List Nat)
  perDevice : List (List Nat)
  noNodesLogged : Bool
deriving DecidableEq, Repr

/-- `__poll_nodes` (lines 522-539): gather every device's nodes into one
batch; when non-empty issue a single `read_attributes` call (modelled by
the oracle `readAttributes`) and fan the values back out; when empty issue
no read and log. -/
def poll_nodes (devices : List PollDevice) (readAttributes : List Nat → List Nat) :
    PollOutcome :=
  let allNodes := devices.flatMap (·.nodes)
  if allNodes.length > 0 then
    { reads := [allNodes],
      perDevice := pollFanOut (readAttributes allNodes) devices 0,
      noNodesLogged := false }
  else
    { reads := [], perDevice := [], noNodesLogged := true }

theorem pollFanOut_getD (values : List Nat) :
    ∀ (ds : List PollDevice) (c i : Nat), i < ds.length →
      (pollFanOut values ds c).getD i [] =
        (values.drop (c + ((ds.take i).map (·.nodes.length)).sum)).take
          ((ds.getD i { nodes := [] }).nodes.length) := by
  intro ds
  induction ds with
  | nil => intro c i hi; simp at hi
  | cons d ds ih =>
    intro c i hi
    cases i with
    | zero => simp [pollFanOut]
    | succ i =>
      have hi2 : i < ds.length := by simpa using hi
      have := ih (c + d.nodes.length) i hi2
      simp only [pollFanOut, List.getD_cons_succ, List.take_succ_cons, List.map_cons,
        List.sum_cons, this]
      ring_nf

theorem pollFanOut_flatten :
    ∀ (ds : List PollDevice) (pre : List Nat),
      pollFanOut (pre ++ ds.flatMap (·.nodes)) ds pre.length = ds.map (·.nodes) := by
  intro ds
  induction ds with
  | nil => intro pre; rfl
  | cons d ds ih =>
    intro pre
    have hassoc : pre ++ (d :: ds).flatMap (·.nodes) =
        (pre ++ d.nodes) ++ ds.flatMap (·.nodes) := by
      simp [List.flatMap_cons, List.append_assoc]
    rw [pollFanOut, hassoc]
    have hhead : (((pre ++ d.nodes) ++ ds.flatMap (·.nodes)).drop pre.length).take
        d.nodes.length = d.nodes := by
      rw [List.append_assoc, List.drop_left, List.take_left]
    have htail := ih (pre ++ d.nodes)
    rw [List.length_append] at htail
    rw [hhead, htail]
    rfl

/-- C9: with `n` bound nodes across all devices, one poll cycle issues
exactly one batched attribute read over the concatenation of the devices'
nodes in device order, and the i-th device's converter receives exactly
the contiguous slice of the returned values at the offset equal to the sum
of the preceding devices' node counts, of its own node count, in batch
order (in particular, reading back the batch itself hands every device
exactly its own nodes); with zero bound nodes no read is issued and the
condition is logged instead of raising. -/
theorem c9_poll_single_batch (devices : List PollDevice)
    (readAttributes : List Nat → List Nat) (i : Nat) (hi : i < devices.length) :
    (devices.flatMap (·.nodes) ≠ [] →
      (poll_nodes devices readAttributes).reads = [devices.flatMap (·.nodes)] ∧
      (poll_nodes devices readAttributes).noNodesLogged = false ∧
      (poll_nodes devices readAttributes).perDevice.getD i [] =
        ((readAttributes (devices.flatMap (·.nodes))).drop
          (((devices.take i).map (·.nodes.length)).sum)).take
          ((devices.getD i { nodes := [] }).nodes.length) ∧
      (poll_nodes devices (fun vs => vs)).perDevice = devices.map (·.nodes)) ∧
    (devices.flatMap (·.nodes) = [] →
      (poll_nodes devices readAttributes).reads = [] ∧
      (poll_nodes devices readAttributes).perDevice = [] ∧
      (poll_nodes devices readAttributes).noNodesLogged = true) := by
  constructor
  · intro hne
    have hlen : (devices.flatMap (·.nodes)).length > 0 :=
      List.length_pos.2 hne
    have hpoll : ∀ ra : List Nat → List Nat, poll_nodes devices ra =
        { reads := [devices.flatMap (·.nodes)],
          perDevice := pollFanOut (ra (devices.flatMap (·.nodes))) devices 0,
          noNodesLogged := false } := by
      intro ra
      simp only [poll_nodes]
      rw [if_pos hlen]
    refine ⟨?_, ?_, ?_, ?_⟩
    · rw [hpoll]
    · rw [hpoll]
    · have hfan := pollFanOut_getD (readAttributes (devices.flatMap (·.nodes)))
        devices 0 i hi
      rw [hpoll]
      simpa using hfan
    · have hflat := pollFanOut_flatten devices []
      simp only [List.nil_append, List.length_nil] at hflat
      rw [hpoll]
      simpa using hflat
  · intro hz
    simp [poll_nodes, hz]

/-- Two devices holding two and one bound nodes. -/
def c9Devices : List PollDevice := [{ nodes := [1, 2] }, { nodes := [3] }]

/-- Witness for C9 at `c9Devices` with a concrete read oracle, checking
the slice handed to the second device. -/
theorem c9_poll_single_batch_witness :
    1 < c9Devices.length ∧
    ((c9Devices.flatMap (·.nodes) ≠ [] →
      (poll_nodes c9Devices (fun vs => vs.map (· * 10))).reads =
        [c9Devices.flatMap (·.nodes)] ∧
      (poll_nodes c9Devices (fun vs => vs.map (· * 10))).noNodesLogged = false ∧
      (poll_nodes c9Devices (fun vs => vs.map (· * 10))).perDevice.getD 1 [] =
        (((fun (vs : List Nat) => vs.map (· * 10)) (c9Devices.flatMap (·.nodes))).drop
          (((c9Devices.take 1).map (·.nodes.length)).sum)).take
          ((c9Devices.getD 1 { nodes := [] }).nodes.length) ∧
      (poll_nodes c9Devices (fun vs => vs)).perDevice = c9Devices.map (·.nodes)) ∧
    (c9Devices.flatMap (·.nodes) = [] →
      (poll_nodes c9Devices (fun vs => vs.map (· * 10))).reads = [] ∧
      (poll_nodes c9Devices (fun vs => vs.map (· * 10))).perDevice = [] ∧
      (poll_nodes c9Devices (fun vs => vs.map (· * 10))).noNodesLogged = true)) :=
  ⟨by decide, c9_poll_single_batch c9Devices (fun vs => vs.map (· * 10)) 1 (by decide)⟩
